import Mathlib

/-!
A shallow embedding of the bus-timing Telegram bot worker (`src/lib.rs`).

The worker is a single stateless request handler: it parses a Telegram
update, authorizes the sender against a configured chat id, dispatches on
a callback query or a `/start` message, optionally fetches bus arrival
timings from the LTA API, formats them, and sends one reply through the
Telegram API.

Modelling choices:
* Machine integers (`i64`) are modelled as `Int`; the values involved
  (chat ids, epoch seconds) never approach the `i64` range in the code's
  arithmetic, and Rust `i64` division truncates toward zero, which is
  `Int.tdiv`.
* The two network calls (the LTA fetch and the Telegram send) are modelled
  by oracle arguments: the outcome each call would have if issued.  The
  handler returns the list of outbound calls it actually issues, in order,
  together with its `Result` value (`Except String` mirrors
  `worker::Result`, whose errors the code builds from strings).
* RFC 3339 timestamp parsing (`chrono::DateTime::parse_from_rfc3339`
  composed with `.timestamp()`) is an external library function; it is
  modelled as an arbitrary parameter `parse_from_rfc3339 : String → Option Int`
  returning the parsed epoch seconds, `none` on parse failure.
-/

namespace BusBot

/-- Chat object inside a Telegram message (`struct Chat`). -/
structure Chat where
  id : Int
deriving DecidableEq

/-- Inbound Telegram message (`struct Message`): chat plus optional text. -/
structure Message where
  chat : Chat
  text : Option String
deriving DecidableEq

/-- Inbound callback query (`struct CallbackQuery`): opaque data token plus
the message the inline button was attached to. -/
structure CallbackQuery where
  data : String
  message : Message
deriving DecidableEq

/-- Inbound update (`struct TelegramUpdate`): both fields are optional, as
in the serde data model, so an empty JSON object yields both `none`. -/
structure TelegramUpdate where
  message : Option Message
  callback_query : Option CallbackQuery
deriving DecidableEq

/-- Inline keyboard button (`struct TelegramButton`). -/
structure TelegramButton where
  text : String
  callback_data : String
deriving DecidableEq

/-- Inline keyboard layout (`struct ReplyMarkup`): rows of buttons. -/
structure ReplyMarkup where
  inline_keyboard : List (List TelegramButton)
deriving DecidableEq

/-- Parse mode of an outbound message (`enum TelegramMessageParseMode`). -/
inductive TelegramMessageParseMode where
  | MarkdownV2
deriving DecidableEq

/-- Outbound Telegram message (`struct TelegramMessage`). -/
structure TelegramMessage where
  chat_id : Int
  text : String
  parse_mode : TelegramMessageParseMode
  reply_markup : Option ReplyMarkup
deriving DecidableEq

/-- One arrival estimate from the LTA response (`struct BusArrival`):
an optional RFC 3339 timestamp string. -/
structure BusArrival where
  estimated_arrival : Option String
deriving DecidableEq

/-- One service from the LTA response (`struct BusService`). -/
structure BusService where
  service_no : String
  next_bus : BusArrival
  next_bus2 : BusArrival
  next_bus3 : BusArrival
deriving DecidableEq

/-- Parsed LTA response body (`struct BusArrivalResponse`). -/
structure BusArrivalResponse where
  services : List BusService
deriving DecidableEq

/-- Per-service display record (`struct BusTiming`). -/
structure BusTiming where
  service_no : String
  next_arrival : String
  next_arrival_2 : String
  next_arrival_3 : String
deriving DecidableEq

/-- The escaped separator line of a formatted block: 26 copies of `\-`
(hyphen escaped for MarkdownV2), as in the literal in
`format_bus_timings_message`. -/
def separator_line : String :=
  "\\-\\-\\-\\-\\-\\-\\-\\-\\-\\-\\-\\-\\-\\-\\-\\-\\-\\-\\-\\-\\-\\-\\-\\-\\-\\-"

/-- The block `format_bus_timings_message` builds for one `BusTiming`:
the body of the `format!` call inside its `map`. -/
def bus_timing_block (bus : BusTiming) : String :=
  "*Service No:* " ++ bus.service_no ++
  "\n*Next Arrival:* " ++ bus.next_arrival ++
  "\n*Next Arrival 2:* " ++ bus.next_arrival_2 ++
  "\n*Next Arrival 3:* " ++ bus.next_arrival_3 ++
  "\n" ++ separator_line ++ "\n"

/-- Embedding of `format_bus_timings_message`: map each timing to its
block, join with a newline (Rust `Vec::join("\n")` is
`String.intercalate "\n"`), and prepend the heading. -/
def format_bus_timings_message (bus_timings : List BusTiming) : String :=
  let timings : List String := bus_timings.map bus_timing_block
  "*Bus Timings:*" ++ "\n\n" ++ String.intercalate "\n" timings

/-- Embedding of `get_telegram_message_with_request_button`: an outbound
message for the given chat and text, MarkdownV2, with the fixed
single-row single-button inline keyboard attached. -/
def get_telegram_message_with_request_button (chat_id : Int) (text : String) :
    TelegramMessage :=
  let request_button : TelegramButton :=
    { text := "Request Bus Timings", callback_data := "request_timings" }
  { chat_id := chat_id
    text := text
    parse_mode := TelegramMessageParseMode.MarkdownV2
    reply_markup := some { inline_keyboard := [[request_button]] } }

/-- Embedding of the `format_arrival` closure inside `fetch_bus_timings`:
absent estimate gives `"NIL"`; a present estimate is parsed, an
unparseable one falls back to epoch second 0 (`unwrap_or(0)`); the
minute difference uses Rust `i64` division, i.e. truncation toward
zero (`Int.tdiv`). -/
def format_arrival (parse_from_rfc3339 : String → Option Int) (now : Int)
    (arrival : BusArrival) : String :=
  match arrival.estimated_arrival with
  | some time =>
      let arrival_time : Int := (parse_from_rfc3339 time).getD 0
      let diff_minutes : Int := (arrival_time - now).tdiv 60
      if diff_minutes ≤ 0 then "ARR" else toString diff_minutes ++ " min"
  | none => "NIL"

/-- The `BusTiming` built for one service inside `fetch_bus_timings`. -/
def bus_timing_of (parse_from_rfc3339 : String → Option Int) (now : Int)
    (service : BusService) : BusTiming :=
  { service_no := service.service_no
    next_arrival := format_arrival parse_from_rfc3339 now service.next_bus
    next_arrival_2 := format_arrival parse_from_rfc3339 now service.next_bus2
    next_arrival_3 := format_arrival parse_from_rfc3339 now service.next_bus3 }

/-- Pure part of `fetch_bus_timings`: given the parsed LTA response body,
map each service to its `BusTiming`.  The network call and JSON parsing
are modelled by the `Except String BusArrivalResponse` oracle passed to
`handle_request`. -/
def fetch_bus_timings (parse_from_rfc3339 : String → Option Int) (now : Int)
    (resp : BusArrivalResponse) : List BusTiming :=
  resp.services.map (bus_timing_of parse_from_rfc3339 now)

/-- One outbound network call of the handler: a GET to the LTA arrival API
for a stop code, or a POST of a message to the Telegram API. -/
inductive OutboundCall where
  | fetch (bus_stop_code : String)
  | send (message : TelegramMessage)
deriving DecidableEq

/-- Chat-id extraction step of `handle_request` (lines 205–211): prefer the
callback query's embedded chat id, else the message's chat id, else fail. -/
def extract_chat_id (update : TelegramUpdate) : Except String Int :=
  match update.callback_query with
  | some callback_query => Except.ok callback_query.message.chat.id
  | none =>
      match update.message with
      | some message => Except.ok message.chat.id
      | none => Except.error "No chat id found in request"

/-- The welcome text of the `/start` reply. -/
def welcome_message : String :=
  "Welcome to the Bus Arrival Bot! Click the button below to request bus timings:"

/-- Embedding of `handle_request`.  `fetch_resp` is the outcome the LTA
call would have if issued (transport or JSON-decode failure as
`Except.error`, the parsed body as `Except.ok`); `send_resp` is the
outcome the Telegram send would have if issued (`Except.ok` carries the
response body text that would be read, `Except.error` a transport
failure of the send or of reading its body).  Returns the list of
outbound calls issued, in order, and the handler's result: the body
`"OK"` of `Response::ok` on success, the error string otherwise. -/
def handle_request (parse_from_rfc3339 : String → Option Int) (now : Int)
    (fetch_resp : Except String BusArrivalResponse)
    (send_resp : Except String String)
    (update : TelegramUpdate)
    (bus_stop_code : String) (allowed_chat_id : String) :
    List OutboundCall × Except String String :=
  match extract_chat_id update with
  | Except.error e => ([], Except.error e)
  | Except.ok chat_id =>
    if toString chat_id = allowed_chat_id then
      match update.callback_query with
      | some callback_query =>
        if callback_query.data = "request_timings" then
          match fetch_resp with
          | Except.error e => ([OutboundCall.fetch bus_stop_code], Except.error e)
          | Except.ok resp =>
            let message :=
              format_bus_timings_message (fetch_bus_timings parse_from_rfc3339 now resp)
            let telegram_message :=
              get_telegram_message_with_request_button chat_id message
            match send_resp with
            | Except.error e =>
                ([OutboundCall.fetch bus_stop_code,
                  OutboundCall.send telegram_message], Except.error e)
            | Except.ok _ =>
                ([OutboundCall.fetch bus_stop_code,
                  OutboundCall.send telegram_message], Except.ok "OK")
        else
          ([], Except.error
            ("Invalid callback query, expected \"request_timings\" but got \"" ++
              callback_query.data ++ "\""))
      | none =>
        match update.message with
        | none => ([], Except.error "No message found in request")
        | some message =>
          match message.text with
          | none => ([], Except.error "No message found in request")
          | some text =>
            if text = "/start" then
              let telegram_message :=
                get_telegram_message_with_request_button chat_id welcome_message
              match send_resp with
              | Except.error e =>
                  ([OutboundCall.send telegram_message], Except.error e)
              | Except.ok _ =>
                  ([OutboundCall.send telegram_message], Except.ok "OK")
            else
              ([], Except.error
                ("Invalid message, expected \"/start\" but got \"" ++ text ++ "\""))
    else
      ([], Except.error ("Chat ID " ++ toString chat_id ++ " is not allowed"))

/-- Reference arrival display, written from the spec's words (§4.2 / claim
C3): absent estimate gives `"NIL"`; a present estimate that fails to parse
is treated as timestamp zero and yields `"ARR"`; a parseable estimate
yields `"ARR"` when `⌊(estimate − now) / 60⌋ ≤ 0` (true mathematical
floor, `Int.fdiv`) and `"<diffMinutes> min"` otherwise. -/
def format_arrival_spec (parse_from_rfc3339 : String → Option Int) (now : Int)
    (arrival : BusArrival) : String :=
  match arrival.estimated_arrival with
  | none => "NIL"
  | some time =>
      match parse_from_rfc3339 time with
      | none => "ARR"
      | some est =>
          let diff_minutes : Int := (est - now).fdiv 60
          if diff_minutes ≤ 0 then "ARR" else toString diff_minutes ++ " min"

/-- Sample summaries used to instantiate the formatting round-trip of §8. -/
def sample_bus_timings : List BusTiming :=
  [{ service_no := "15", next_arrival := "ARR", next_arrival_2 := "2 min", next_arrival_3 := "NIL" },
   { service_no := "20", next_arrival := "1 min", next_arrival_2 := "5 min", next_arrival_3 := "9 min" },
   { service_no := "147", next_arrival := "NIL", next_arrival_2 := "NIL", next_arrival_3 := "NIL" }]

/-- Split a character list into newline-delimited lines (structurally
recursive, so concrete instances reduce inside the kernel); `acc` holds
the characters of the current line in reverse. -/
def split_lines_aux : List Char → List Char → List String
  | [], acc => [String.mk acc.reverse]
  | c :: cs, acc =>
      if c = '\n' then String.mk acc.reverse :: split_lines_aux cs []
      else split_lines_aux cs (c :: acc)

/-- The newline-delimited lines of a string. -/
def split_lines (s : String) : List String :=
  split_lines_aux s.data []

/-- Extract the service number from a formatted line: the part after the
label `"*Service No:* "` when the line starts with that label. -/
def service_no_of_line (line : String) : Option String :=
  if List.isPrefixOf "*Service No:* ".data line.data
  then some (String.mk (line.data.drop 14))
  else none

/-- Truncating division of a nonpositive integer by 60 is nonpositive. -/
theorem tdiv_sixty_nonpos {a : Int} (h : a ≤ 0) : a.tdiv 60 ≤ 0 := by
  have h2 : (0 : Int) ≤ -a := by omega
  have h3 := Int.tdiv_nonneg h2 (by norm_num : (0 : Int) ≤ 60)
  rw [Int.neg_tdiv] at h3
  omega

/-- Floor division of a nonpositive integer by 60 is nonpositive. -/
theorem fdiv_sixty_nonpos {a : Int} (h : a ≤ 0) : a.fdiv 60 ≤ 0 := by
  rw [Int.fdiv_eq_ediv a (by norm_num : (0 : Int) ≤ 60)]
  omega

/-- C3: the arrival display of the code (truncating `i64` division, with
unparseable estimates falling back to epoch second 0) agrees with the
spec's reference definition (floor division, unparseable estimates
displayed `"ARR"`) for every estimate, at every current time `now` (any
nonnegative epoch second, i.e. any instant from 1970 on). -/
theorem format_arrival_eq_spec (parse_from_rfc3339 : String → Option Int)
    (now : Int) (arrival : BusArrival) (hnow : 0 ≤ now) :
    format_arrival parse_from_rfc3339 now arrival
      = format_arrival_spec parse_from_rfc3339 now arrival := by
  obtain ⟨ea⟩ := arrival
  cases ea with
  | none => rfl
  | some time =>
    cases hp : parse_from_rfc3339 time with
    | none =>
      have h2 : 0 ≤ now.tdiv 60 := Int.tdiv_nonneg hnow (by norm_num)
      simp [format_arrival, format_arrival_spec, hp]
      intro h3
      exact absurd h3 (by omega)
    | some est =>
      by_cases hle : 0 ≤ est - now
      · have heq : (est - now).fdiv 60 = (est - now).tdiv 60 :=
          Int.fdiv_eq_tdiv hle (by norm_num)
        simp [format_arrival, format_arrival_spec, hp, heq]
      · have h1 : (est - now).tdiv 60 ≤ 0 := tdiv_sixty_nonpos (by omega)
        have h2 : (est - now).fdiv 60 ≤ 0 := fdiv_sixty_nonpos (by omega)
        simp [format_arrival, format_arrival_spec, hp, h1, h2]

/-- Witness for C3 at a concrete input: estimate 125 seconds after epoch,
now = 0. -/
theorem format_arrival_eq_spec_witness :
    (0 : Int) ≤ 0 ∧
    format_arrival (fun _ => some 125) 0 { estimated_arrival := some "t" }
      = format_arrival_spec (fun _ => some 125) 0 { estimated_arrival := some "t" } :=
  ⟨by norm_num,
   format_arrival_eq_spec (fun _ => some 125) 0 { estimated_arrival := some "t" } (by norm_num)⟩

/-- C4 fails as stated: with now = 0 and a parseable estimate 30 seconds in
the future (estimate > now), the code displays `"ARR"`, not
`"⌊30 / 60⌋ min" = "0 min"` as the claim's second case requires. -/
theorem format_arrival_future_counterexample :
    (0 : Int) < 30 ∧
    format_arrival (fun _ => some 30) 0 { estimated_arrival := some "t" } = "ARR" ∧
    format_arrival (fun _ => some 30) 0 { estimated_arrival := some "t" }
      ≠ toString (((30 : Int) - 0).fdiv 60) ++ " min" := by
  refine ⟨by norm_num, by decide, by decide⟩

/-- C4 (amended): for every present, parseable estimate, if estimate ≤ now
the display is `"ARR"`; if estimate > now the display is `"ARR"` when
`⌊(estimate − now) / 60⌋ = 0` and `"⌊(estimate − now) / 60⌋ min"` when the
floor is at least 1.  (With now = T: estimate = T+125s gives `"2 min"` and
estimate = T−10s gives `"ARR"`; see the witness.) -/
theorem format_arrival_threshold (parse_from_rfc3339 : String → Option Int)
    (now est : Int) (time : String) (hp : parse_from_rfc3339 time = some est) :
    (est ≤ now →
      format_arrival parse_from_rfc3339 now { estimated_arrival := some time } = "ARR") ∧
    (now < est → (est - now).fdiv 60 = 0 →
      format_arrival parse_from_rfc3339 now { estimated_arrival := some time } = "ARR") ∧
    (now < est → 1 ≤ (est - now).fdiv 60 →
      format_arrival parse_from_rfc3339 now { estimated_arrival := some time }
        = toString ((est - now).fdiv 60) ++ " min") := by
  refine ⟨?_, ?_, ?_⟩
  · intro hle
    have h1 : (est - now).tdiv 60 ≤ 0 := tdiv_sixty_nonpos (by omega)
    simp [format_arrival, hp, h1]
  · intro hlt hz
    have heq : (est - now).fdiv 60 = (est - now).tdiv 60 :=
      Int.fdiv_eq_tdiv (by omega) (by norm_num)
    have h1 : (est - now).tdiv 60 ≤ 0 := by omega
    simp [format_arrival, hp, h1]
  · intro hlt hone
    have heq : (est - now).fdiv 60 = (est - now).tdiv 60 :=
      Int.fdiv_eq_tdiv (by omega) (by norm_num)
    have h1 : ¬ (est - now).tdiv 60 ≤ 0 := by omega
    simp [format_arrival, hp, h1, heq]

/-- Witness for the amended C4 at the spec's two concrete examples:
now = 0 with estimate 125 gives `"2 min"`, estimate −10 gives `"ARR"`. -/
theorem format_arrival_threshold_witness :
    format_arrival (fun _ => some 125) 0 { estimated_arrival := some "t" } = "2 min" ∧
    format_arrival (fun _ => some (-10)) 0 { estimated_arrival := some "t" } = "ARR" := by
  constructor
  · have h := (format_arrival_threshold (fun _ => some 125) 0 125 "t" rfl).2.2
      (by norm_num) (by decide)
    rw [h]
    decide
  · exact (format_arrival_threshold (fun _ => some (-10)) 0 (-10) "t" rfl).1 (by norm_num)

/-- C1: for an update carrying a callback query with data
`"request_timings"` from the authorized chat, when the fetch and the send
succeed, the handler issues exactly one fetch for the configured stop code
followed by exactly one send, and the sent text is the heading followed by
one formatted block per service of the fetched response, in response
order. -/
theorem handle_request_callback_authorized
    (parse_from_rfc3339 : String → Option Int) (now : Int)
    (resp : BusArrivalResponse) (body : String)
    (update : TelegramUpdate) (callback_query : CallbackQuery)
    (bus_stop_code allowed_chat_id : String)
    (hcq : update.callback_query = some callback_query)
    (hdata : callback_query.data = "request_timings")
    (hauth : toString callback_query.message.chat.id = allowed_chat_id) :
    handle_request parse_from_rfc3339 now (Except.ok resp) (Except.ok body)
        update bus_stop_code allowed_chat_id
      = ([OutboundCall.fetch bus_stop_code,
          OutboundCall.send (get_telegram_message_with_request_button
            callback_query.message.chat.id
            (format_bus_timings_message (fetch_bus_timings parse_from_rfc3339 now resp)))],
         Except.ok "OK") ∧
    format_bus_timings_message (fetch_bus_timings parse_from_rfc3339 now resp)
      = "*Bus Timings:*" ++ "\n\n" ++ String.intercalate "\n"
          (resp.services.map (fun s => bus_timing_block (bus_timing_of parse_from_rfc3339 now s))) := by
  constructor
  · unfold handle_request extract_chat_id
    rw [hcq]
    simp [hauth, hdata, hcq]
  · unfold format_bus_timings_message fetch_bus_timings
    rw [List.map_map]
    rfl

/-- Witness for C1: chat id 42 authorized as "42", one service in the
fetched response; the handler's result is "OK". -/
theorem handle_request_callback_authorized_witness :
    (handle_request (fun _ => none) 0
        (Except.ok { services := [{ service_no := "15",
                                    next_bus := { estimated_arrival := none },
                                    next_bus2 := { estimated_arrival := none },
                                    next_bus3 := { estimated_arrival := none } }] })
        (Except.ok "")
        { message := none,
          callback_query := some { data := "request_timings",
                                   message := { chat := { id := 42 }, text := none } } }
        "83139" "42").2 = Except.ok "OK" := by
  have h := handle_request_callback_authorized (fun _ => none) 0
      { services := [{ service_no := "15",
                       next_bus := { estimated_arrival := none },
                       next_bus2 := { estimated_arrival := none },
                       next_bus3 := { estimated_arrival := none } }] }
      ""
      { message := none,
        callback_query := some { data := "request_timings",
                                 message := { chat := { id := 42 }, text := none } } }
      { data := "request_timings", message := { chat := { id := 42 }, text := none } }
      "83139" "42" rfl rfl (by decide)
  rw [h.1]

/-- C2: for any update whose extracted chat id, rendered as a decimal
string, differs from the configured authorized chat id, the handler issues
no outbound call at all and fails with the unauthorized error, whatever
the update's command or callback content and whatever the oracles would
return. -/
theorem handle_request_unauthorized
    (parse_from_rfc3339 : String → Option Int) (now : Int)
    (fetch_resp : Except String BusArrivalResponse)
    (send_resp : Except String String)
    (update : TelegramUpdate) (bus_stop_code allowed_chat_id : String) (chat_id : Int)
    (hex : extract_chat_id update = Except.ok chat_id)
    (hne : toString chat_id ≠ allowed_chat_id) :
    handle_request parse_from_rfc3339 now fetch_resp send_resp
        update bus_stop_code allowed_chat_id
      = ([], Except.error ("Chat ID " ++ toString chat_id ++ " is not allowed")) := by
  unfold handle_request
  rw [hex]
  simp [hne]

/-- Witness for C2: chat id 7 against authorized chat id "42". -/
theorem handle_request_unauthorized_witness :
    handle_request (fun _ => none) 0
        (Except.ok { services := [] }) (Except.ok "")
        { message := some { chat := { id := 7 }, text := some "/start" },
          callback_query := none }
        "83139" "42"
      = ([], Except.error ("Chat ID " ++ toString (7 : Int) ++ " is not allowed")) :=
  handle_request_unauthorized (fun _ => none) 0
    (Except.ok { services := [] }) (Except.ok "")
    { message := some { chat := { id := 7 }, text := some "/start" },
      callback_query := none }
    "83139" "42" 7 rfl (by decide)

/-- C5: for an update from the authorized chat with no callback query:
text exactly "/start" yields exactly one outbound send of the welcome
message with the fixed button and no fetch (with result "OK" when the send
succeeds at transport level); any other text fails with the
invalid-command error and nothing is sent; absent text fails with the
no-message error and nothing is sent. -/
theorem handle_request_start_command
    (parse_from_rfc3339 : String → Option Int) (now : Int)
    (fetch_resp : Except String BusArrivalResponse)
    (send_resp : Except String String)
    (update : TelegramUpdate) (m : Message)
    (bus_stop_code allowed_chat_id : String)
    (hcq : update.callback_query = none)
    (hm : update.message = some m)
    (hauth : toString m.chat.id = allowed_chat_id) :
    (m.text = some "/start" →
      handle_request parse_from_rfc3339 now fetch_resp send_resp
          update bus_stop_code allowed_chat_id
        = ([OutboundCall.send
              (get_telegram_message_with_request_button m.chat.id welcome_message)],
           match send_resp with
           | Except.error e => Except.error e
           | Except.ok _ => Except.ok "OK")) ∧
    (∀ t, m.text = some t → t ≠ "/start" →
      handle_request parse_from_rfc3339 now fetch_resp send_resp
          update bus_stop_code allowed_chat_id
        = ([], Except.error
            ("Invalid message, expected \"/start\" but got \"" ++ t ++ "\""))) ∧
    (m.text = none →
      handle_request parse_from_rfc3339 now fetch_resp send_resp
          update bus_stop_code allowed_chat_id
        = ([], Except.error "No message found in request")) := by
  refine ⟨?_, ?_, ?_⟩
  · intro ht
    unfold handle_request extract_chat_id
    rw [hcq, hm]
    cases send_resp with
    | error e => simp [hauth, ht]
    | ok b => simp [hauth, ht]
  · intro t ht hne
    unfold handle_request extract_chat_id
    rw [hcq, hm]
    simp [hauth, ht, hne]
  · intro ht
    unfold handle_request extract_chat_id
    rw [hcq, hm]
    simp [hauth, ht]

/-- Witness for C5: a "/start" message from chat 42 authorized as "42"
with a transport-successful send. -/
theorem handle_request_start_command_witness :
    handle_request (fun _ => none) 0
        (Except.ok { services := [] }) (Except.ok "")
        { message := some { chat := { id := 42 }, text := some "/start" },
          callback_query := none }
        "83139" "42"
      = ([OutboundCall.send
            (get_telegram_message_with_request_button 42 welcome_message)],
         Except.ok "OK") :=
  (handle_request_start_command (fun _ => none) 0
    (Except.ok { services := [] }) (Except.ok "")
    { message := some { chat := { id := 42 }, text := some "/start" },
      callback_query := none }
    { chat := { id := 42 }, text := some "/start" }
    "83139" "42" rfl rfl (by decide)).1 rfl

/-- C6: an update in which both the message and the callback-query field
are absent fails at chat-id extraction with the malformed-payload error,
and the handler issues zero outbound calls, whatever the oracles would
return. -/
theorem handle_request_empty_update
    (parse_from_rfc3339 : String → Option Int) (now : Int)
    (fetch_resp : Except String BusArrivalResponse)
    (send_resp : Except String String)
    (bus_stop_code allowed_chat_id : String) :
    handle_request parse_from_rfc3339 now fetch_resp send_resp
        { message := none, callback_query := none } bus_stop_code allowed_chat_id
      = ([], Except.error "No chat id found in request") := rfl

/-- Invariant behind C7 and C9: any message the handler sends was built by
`get_telegram_message_with_request_button`, and if the send oracle is a
transport-level success then the handler's result is `Except.ok "OK"`. -/
theorem handle_request_send_inv
    (parse_from_rfc3339 : String → Option Int) (now : Int)
    (fetch_resp : Except String BusArrivalResponse)
    (send_resp : Except String String)
    (update : TelegramUpdate) (bus_stop_code allowed_chat_id : String)
    (msg : TelegramMessage)
    (h : OutboundCall.send msg ∈
        (handle_request parse_from_rfc3339 now fetch_resp send_resp
          update bus_stop_code allowed_chat_id).1) :
    (∃ chat_id text, msg = get_telegram_message_with_request_button chat_id text) ∧
    (∀ body, send_resp = Except.ok body →
      (handle_request parse_from_rfc3339 now fetch_resp send_resp
          update bus_stop_code allowed_chat_id).2 = Except.ok "OK") := by
  obtain ⟨msg_opt, cq_opt⟩ := update
  cases cq_opt with
  | some cq =>
    by_cases hauth : toString cq.message.chat.id = allowed_chat_id
    · by_cases hdata : cq.data = "request_timings"
      · cases fetch_resp with
        | error e => simp [handle_request, extract_chat_id, hauth, hdata] at h
        | ok resp =>
          cases send_resp with
          | error e =>
            simp [handle_request, extract_chat_id, hauth, hdata] at h
            refine ⟨⟨cq.message.chat.id, _, h⟩, ?_⟩
            intro body hb
            cases hb
          | ok b =>
            simp [handle_request, extract_chat_id, hauth, hdata] at h
            refine ⟨⟨cq.message.chat.id, _, h⟩, ?_⟩
            intro body _
            simp [handle_request, extract_chat_id, hauth, hdata]
      · simp [handle_request, extract_chat_id, hauth, hdata] at h
    · simp [handle_request, extract_chat_id, hauth] at h
  | none =>
    cases msg_opt with
    | none => simp [handle_request, extract_chat_id] at h
    | some m =>
      obtain ⟨chat, text_opt⟩ := m
      by_cases hauth : toString chat.id = allowed_chat_id
      · cases text_opt with
        | none => simp [handle_request, extract_chat_id, hauth] at h
        | some t =>
          by_cases ht : t = "/start"
          · subst ht
            cases send_resp with
            | error e =>
              simp [handle_request, extract_chat_id, hauth] at h
              refine ⟨⟨chat.id, _, h⟩, ?_⟩
              intro body hb
              cases hb
            | ok b =>
              simp [handle_request, extract_chat_id, hauth] at h
              refine ⟨⟨chat.id, _, h⟩, ?_⟩
              intro body _
              simp [handle_request, extract_chat_id, hauth]
          · simp [handle_request, extract_chat_id, hauth, ht] at h
      · simp [handle_request, extract_chat_id, hauth] at h

/-- The handler's behaviour does not depend on the body text carried by a
transport-successful send outcome. -/
theorem handle_request_ok_body_irrelevant
    (parse_from_rfc3339 : String → Option Int) (now : Int)
    (fetch_resp : Except String BusArrivalResponse) (b1 b2 : String)
    (update : TelegramUpdate) (bus_stop_code allowed_chat_id : String) :
    handle_request parse_from_rfc3339 now fetch_resp (Except.ok b1)
        update bus_stop_code allowed_chat_id
      = handle_request parse_from_rfc3339 now fetch_resp (Except.ok b2)
        update bus_stop_code allowed_chat_id := rfl

/-- C7: every outbound message the handler constructs, welcome reply or
arrival report, carries the same single inline button, text
"Request Bus Timings" with callback token "request_timings", as one row
of one button. -/
theorem outbound_button_fixed
    (parse_from_rfc3339 : String → Option Int) (now : Int)
    (fetch_resp : Except String BusArrivalResponse)
    (send_resp : Except String String)
    (update : TelegramUpdate) (bus_stop_code allowed_chat_id : String)
    (msg : TelegramMessage)
    (h : OutboundCall.send msg ∈
        (handle_request parse_from_rfc3339 now fetch_resp send_resp
          update bus_stop_code allowed_chat_id).1) :
    msg.reply_markup
      = some { inline_keyboard :=
          [[{ text := "Request Bus Timings", callback_data := "request_timings" }]] } := by
  obtain ⟨⟨chat_id, text, hmsg⟩, -⟩ :=
    handle_request_send_inv parse_from_rfc3339 now fetch_resp send_resp
      update bus_stop_code allowed_chat_id msg h
  rw [hmsg]
  rfl

/-- Witness for C7: the welcome reply sent for a "/start" message from
chat 42 authorized as "42" carries the fixed button. -/
theorem outbound_button_fixed_witness :
    (get_telegram_message_with_request_button 42 welcome_message).reply_markup
      = some { inline_keyboard :=
          [[{ text := "Request Bus Timings", callback_data := "request_timings" }]] } :=
  outbound_button_fixed (fun _ => none) 0
    (Except.ok { services := [] }) (Except.ok "")
    { message := some { chat := { id := 42 }, text := some "/start" },
      callback_query := none }
    "83139" "42"
    (get_telegram_message_with_request_button 42 welcome_message)
    (by decide)

/-- C9: once the send call succeeds at the transport level (the send
oracle is `Except.ok body`), the handler that issued a send returns
`Except.ok "OK"` whatever the body says, and its whole behaviour is the
same for every body: a platform-side rejection carried in the body never
turns the result into a failure. -/
theorem handle_request_ok_ignores_body
    (parse_from_rfc3339 : String → Option Int) (now : Int)
    (fetch_resp : Except String BusArrivalResponse) (body : String)
    (update : TelegramUpdate) (bus_stop_code allowed_chat_id : String)
    (h : ∃ msg, OutboundCall.send msg ∈
        (handle_request parse_from_rfc3339 now fetch_resp (Except.ok body)
          update bus_stop_code allowed_chat_id).1) :
    (handle_request parse_from_rfc3339 now fetch_resp (Except.ok body)
        update bus_stop_code allowed_chat_id).2 = Except.ok "OK" ∧
    ∀ body2, handle_request parse_from_rfc3339 now fetch_resp (Except.ok body2)
        update bus_stop_code allowed_chat_id
      = handle_request parse_from_rfc3339 now fetch_resp (Except.ok body)
        update bus_stop_code allowed_chat_id := by
  obtain ⟨msg, hm⟩ := h
  refine ⟨(handle_request_send_inv parse_from_rfc3339 now fetch_resp (Except.ok body)
      update bus_stop_code allowed_chat_id msg hm).2 body rfl, ?_⟩
  intro body2
  exact handle_request_ok_body_irrelevant parse_from_rfc3339 now fetch_resp
    body2 body update bus_stop_code allowed_chat_id

/-- Witness for C9: a "/start" message from chat 42 authorized as "42"
whose send succeeds with a body reporting a platform-side rejection still
yields "OK". -/
theorem handle_request_ok_ignores_body_witness :
    (handle_request (fun _ => none) 0
        (Except.ok { services := [] }) (Except.ok "ok: false, error_code: 400")
        { message := some { chat := { id := 42 }, text := some "/start" },
          callback_query := none }
        "83139" "42").2 = Except.ok "OK" :=
  (handle_request_ok_ignores_body (fun _ => none) 0
    (Except.ok { services := [] }) "ok: false, error_code: 400"
    { message := some { chat := { id := 42 }, text := some "/start" },
      callback_query := none }
    "83139" "42"
    ⟨get_telegram_message_with_request_button 42 welcome_message, by decide⟩).1

/-- C8: the formatter maps each summary to its block (heading first,
blocks joined by a newline, each block ending in a blank line after its
escaped separator); the separator is 26 escaped hyphens; and formatting
the three sample summaries with service numbers "15", "20", "147" yields
exactly three separator lines and those three service numbers, in input
order. -/
theorem format_bus_timings_message_structure :
    (∀ l, format_bus_timings_message l
        = "*Bus Timings:*" ++ "\n\n" ++ String.intercalate "\n" (l.map bus_timing_block)) ∧
    separator_line = String.join (List.replicate 26 "\\-") ∧
    (split_lines (format_bus_timings_message sample_bus_timings)).count separator_line = 3 ∧
    (split_lines (format_bus_timings_message sample_bus_timings)).filterMap service_no_of_line
      = ["15", "20", "147"] := by
  refine ⟨fun l => rfl, by decide, ?_, ?_⟩ <;> decide

/-- C10: the dispatch branch failing because the update has neither a
callback query nor a message is unreachable: whenever chat-id extraction
succeeds on an update without a callback query, the message field is
present. -/
theorem message_present_when_no_callback
    (update : TelegramUpdate) (chat_id : Int)
    (h1 : extract_chat_id update = Except.ok chat_id)
    (h2 : update.callback_query = none) :
    update.message.isSome = true := by
  unfold extract_chat_id at h1
  rw [h2] at h1
  cases hm : update.message with
  | none =>
    rw [hm] at h1
    exact absurd h1 (by simp)
  | some m => rfl

/-- Witness for C10: a plain message update from chat 5. -/
theorem message_present_when_no_callback_witness :
    ({ message := some { chat := { id := 5 }, text := none },
       callback_query := none } : TelegramUpdate).message.isSome = true :=
  message_present_when_no_callback
    { message := some { chat := { id := 5 }, text := none }, callback_query := none }
    5 rfl rfl

end BusBot
